import Mathlib

/-!
Verification of the pyAutoProcessing upload daemon (`autoupload.py`).

The file shallowly embeds the pipeline of `autoupload.py`: argument wiring
(`__main__`), the `AutoUploadModule` constructor, the scanner-side enqueue
(`_append_file`), the worker-side processing (`_process_file`, `_upload_file`,
`_move_file`, `_delete_file`) and the worker's dedup release
(`_worker_thread`).  Side effects (progress-bar calls, filesystem renames and
removals, per-chunk progress callbacks) are recorded as an explicit event
trace; the filesystem is a function from path to `Option Nat` (`none` means
the path is not a regular file, `some n` means a regular file of `n` bytes).
-/

namespace AutoUpload

/-- Python truthiness of a string (`if self.mv:`): true iff nonempty. -/
def pyTruthy (s : String) : Bool := s != ""

/-- `os.path.basename`: the last `/`-separated component of a path. -/
def basename (p : String) : String := (p.splitOn "/").getLastD ""

/-- `os.path.join` as used on a directory and a bare file name. -/
def pathJoin (a b : String) : String := a ++ "/" ++ b

/-- One observable side effect of processing a file, in program order. -/
inductive Event where
  | addTask (name : String) (total : Nat)
  | startTask
  | advance (n : Nat)
  | removeTask
  | rename (src : String) (dst : String)
  | removeFile (path : String)
  deriving DecidableEq, Repr

/-- The blocksize passed to `ftp.storbinary` (`autoupload.py` line 100). -/
def BLOCKSIZE : Nat := 1024

/-- `FtpUploadTracker.handle` advances the progress bar by the constant 1024
    on every callback, regardless of the block actually sent (line 30). -/
def tracker_advance : Nat := 1024

/-- How many times `ftplib.storbinary` invokes the callback for a file of
    `size` bytes sent in blocks of `blocksize` bytes: once per nonempty read,
    i.e. `ceil (size / blocksize)`. -/
def storbinary_callbacks (size blocksize : Nat) : Nat :=
  (size + blocksize - 1) / blocksize

/-- Outcome of the externally-visible FTP interaction inside `_upload_file`:
    which of the guarded calls failed, if any.  `storeError k` means the
    store aborted after `k` callback-acknowledged chunks. -/
inductive UploadResult where
  | connectError
  | cwdError
  | fileNotFound
  | permissionError
  | storeError (chunksSent : Nat)
  | success
  deriving DecidableEq, Repr

/-- `_upload_file` returns `True` only when `storbinary` completed. -/
def UploadResult.ok : UploadResult → Bool
  | .success => true
  | _ => false

/-- `_upload_file` (lines 68-116): the boolean result and the progress events
    it emits.  Connect and cwd failures happen before `start_task`; a store
    error happens after it, with `k` advances already reported; on success
    the tracker is called once per chunk.  `_upload_file` itself never
    removes the progress task. -/
def upload_file (r : UploadResult) (size : Nat) : Bool × List Event :=
  match r with
  | .connectError => (false, [])
  | .cwdError => (false, [])
  | .fileNotFound => (false, [])
  | .permissionError => (false, [])
  | .storeError k =>
      (false, Event.startTask :: List.replicate k (Event.advance tracker_advance))
  | .success =>
      (true, Event.startTask ::
        List.replicate (storbinary_callbacks size BLOCKSIZE) (Event.advance tracker_advance))

/-- The post-action configuration of `AutoUploadModule`: `rm` is the
    `--remove` flag, `mv` the `--move` directory (empty string when unset,
    matching the argparse default). -/
structure Config where
  rm : Bool
  mv : String
  deriving Repr

/-- `_move_file` (lines 118-123): rename into the move directory, then
    remove the progress task. -/
def move_file (cfg : Config) (path name : String) : List Event :=
  [Event.rename path (pathJoin cfg.mv name), Event.removeTask]

/-- `_delete_file` (lines 125-129): remove the local file, then remove the
    progress task. -/
def delete_file (path : String) : List Event :=
  [Event.removeFile path, Event.removeTask]

/-- `_process_file` (lines 144-175): returns the boolean result and the
    events emitted, in program order.  The fall-through
    `self.progress.remove_task` on line 173 is reached only when the upload
    did not succeed: the success-without-post-action branch returns `True`
    on line 167 without removing the task. -/
def process_file (cfg : Config) (fs : String → Option Nat) (r : UploadResult)
    (path : String) : Bool × List Event :=
  let name := basename path
  match fs path with
  | none => (false, [])
  | some size =>
    if size = 0 then (false, [])
    else
      let up := upload_file r size
      let evs := Event.addTask name size :: up.2
      if up.1 then
        if pyTruthy cfg.mv then (true, evs ++ move_file cfg path name)
        else if cfg.rm then (true, evs ++ delete_file path)
        else (true, evs)
      else (false, evs ++ [Event.removeTask])

/-- The shared mutable state of the pipeline: the bounded queue (front of the
    list is the oldest entry) and the in-flight list `self.files`. -/
structure ModState where
  queue : List String
  files : List String
  deriving DecidableEq, Repr

/-- `queue.Queue(maxsize=15)` (line 42). -/
def QUEUE_CAPACITY : Nat := 15

/-- `os.path.isfile` over the modelled filesystem. -/
def isfile (fs : String → Option Nat) (p : String) : Bool := (fs p).isSome

/-- `_append_file` (lines 131-142): skip when already tracked or not a file;
    otherwise non-blocking `queue.put` then `files.append`; a full queue
    raises `queue.Full`, which is caught (no exception escapes) and answered
    with `time.sleep(5.0)`.  Returns the new state and whether the scanner
    slept (the backoff). -/
def append_file (fs : String → Option Nat) (s : ModState) (path : String) :
    ModState × Bool :=
  if path ∈ s.files then (s, false)
  else if isfile fs path then
    if s.queue.length < QUEUE_CAPACITY then
      ({ queue := s.queue ++ [path], files := s.files ++ [path] }, false)
    else (s, true)
  else (s, false)

/-- The states `_append_file` passes through on a successful enqueue: the
    initial state, the state after `queue.put` (line 136) and the state
    after `files.append` (line 137).  On all other paths the state never
    changes. -/
def append_file_states (fs : String → Option Nat) (s : ModState) (path : String) :
    List ModState :=
  if path ∈ s.files then [s]
  else if isfile fs path then
    if s.queue.length < QUEUE_CAPACITY then
      [s,
       { queue := s.queue ++ [path], files := s.files },
       { queue := s.queue ++ [path], files := s.files ++ [path] }]
    else [s]
  else [s]

/-- `queue.get(False)` (line 183): `none` models `queue.Empty`. -/
def queue_get (q : List String) : Option (String × List String) :=
  match q with
  | [] => none
  | x :: xs => some (x, xs)

/-- The dedup release in `_worker_thread` (lines 191-193): after
    `_process_file` returns, the path is removed from `self.files` iff
    `self.rm or self.mv` — unconditionally on the processing outcome.
    `list.remove` deletes the first occurrence; the `ValueError` it raises
    when absent is caught (line 194), which `List.erase`'s no-op matches. -/
def worker_release (cfg : Config) (files : List String) (path : String) :
    List String :=
  if cfg.rm || pyTruthy cfg.mv then files.erase path else files

/-- One worker iteration body after a successful pop (lines 187-199):
    process the file, then apply the dedup release.  Returns the new
    in-flight list, `_process_file`'s result and its event trace. -/
def worker_step (cfg : Config) (fs : String → Option Nat) (r : UploadResult)
    (files : List String) (path : String) : List String × Bool × List Event :=
  let pr := process_file cfg fs r path
  (worker_release cfg files path, pr.1, pr.2)

/-- One scanner-enqueue / worker-process round for a single path starting
    from state `s`: `_append_file`, then (if the queue is nonempty) one
    worker pops the front and runs `_process_file` plus the dedup release. -/
def scan_worker_cycle (cfg : Config) (fs : String → Option Nat)
    (r : UploadResult) (s : ModState) (path : String) : ModState :=
  let s1 := (append_file fs s path).1
  match queue_get s1.queue with
  | none => s1
  | some (p, q) => { queue := q, files := (worker_step cfg fs r s1.files p).1 }

/-- Count of `remove_task` calls in a trace. -/
def countRemoveTask (evs : List Event) : Nat := evs.count Event.removeTask

/-- Recognise `add_task` events. -/
def isAddTask : Event → Bool
  | .addTask _ _ => true
  | _ => false

/-- Count of `add_task` calls in a trace. -/
def countAddTask (evs : List Event) : Nat := evs.countP isAddTask

/-- The number of bytes one event reports to the progress bar. -/
def advanceOf : Event → Nat
  | .advance n => n
  | _ => 0

/-- Total progress advancement reported by a trace. -/
def advanceTotal (evs : List Event) : Nat := (evs.map advanceOf).sum

/-- Recognise local filesystem mutations (rename or delete). -/
def isFsMutation : Event → Bool
  | .rename _ _ => true
  | .removeFile _ => true
  | _ => false

/-- The filesystem mutations of a trace, in order. -/
def fsMutations (evs : List Event) : List Event := evs.filter isFsMutation

/-- The parsed command-line arguments (argparse declaration, lines 224-234). -/
structure Args where
  source : String
  ftp_server : String
  threads : Nat
  ftp_user : String
  ftp_password : String
  ftp_port : Nat
  ftp_dir : String
  move : String
  remove : Bool
  deriving Repr

/-- The argparse defaults: `--threads` 3, `--ftp_user` anonymous,
    `--ftp_password` empty, `--ftp_port` 22, `--ftp_dir` "/",
    `--move` empty, `--remove` false. -/
def defaultArgs (source server : String) : Args :=
  { source := source, ftp_server := server, threads := 3,
    ftp_user := "anonymous", ftp_password := "", ftp_port := 22,
    ftp_dir := "/", move := "", remove := false }

/-- The configuration-bearing fields of `AutoUploadModule.__init__`
    (lines 34-48).  `numWorkers` is the length of `self.workers`, one
    `_worker_thread` per `n in range(num_threads)` (lines 45-46). -/
structure AutoUploadModule where
  source_dir : String
  server : String
  user : String
  passwd : String
  rm : Bool
  mv : String
  remote_dir : String
  queueMaxsize : Nat
  num_threads : Nat
  numWorkers : Nat
  deriving Repr

/-- `AutoUploadModule.__init__`: the kwargs accepted are `user`, `password`,
    `remove`, `move_to` and `remote_dir`; there is no port parameter at all. -/
def mkAutoUploadModule (source_dir server : String) (num_threads : Nat)
    (user password remote_dir : String) (remove : Bool) (move_to : String) :
    AutoUploadModule :=
  { source_dir := source_dir, server := server, user := user,
    passwd := password, rm := remove, mv := move_to,
    remote_dir := remote_dir, queueMaxsize := 15,
    num_threads := num_threads, numWorkers := num_threads }

/-- The `__main__` construction of the module (lines 277-278): it passes the
    literal `num_threads=3`, not `args.threads`, and never passes
    `args.ftp_port` anywhere. -/
def moduleFromArgs (a : Args) : AutoUploadModule :=
  mkAutoUploadModule a.source a.ftp_server 3 a.ftp_user a.ftp_password
    a.ftp_dir a.remove a.move

/-- The arguments of the `ftplib.FTP(...)` constructor call in
    `_upload_file` (line 80): host, user and password only; `port = none`
    records that no port argument is supplied. -/
structure FtpConnectCall where
  host : String
  user : String
  passwd : String
  port : Option Nat
  deriving Repr

/-- `ftp = ftplib.FTP(host=self.server, user=self.user, passwd=self.passwd)`. -/
def uploadFtpConnect (m : AutoUploadModule) : FtpConnectCall :=
  { host := m.server, user := m.user, passwd := m.passwd, port := none }

/-- `ftplib`'s default control port, used whenever `FTP()` is given no port. -/
def ftplibDefaultPort : Nat := 21

/-- The port a connect call actually uses. -/
def connectPort (c : FtpConnectCall) : Nat := c.port.getD ftplibDefaultPort

/-- `ftp.cwd(self.remote_dir)` (line 89): the remote directory changed into
    before `STOR`. -/
def uploadCwd (m : AutoUploadModule) : String := m.remote_dir

/-- The queue-contents-are-tracked invariant of the pipeline state. -/
def queueSubFiles (s : ModState) : Prop := ∀ p ∈ s.queue, p ∈ s.files

/-! ### Helper lemmas shared by the claim theorems -/

theorem upload_file_fst (r : UploadResult) (size : Nat) :
    (upload_file r size).1 = r.ok := by
  cases r <;> rfl

theorem countRemoveTask_upload (r : UploadResult) (size : Nat) :
    countRemoveTask (upload_file r size).2 = 0 := by
  cases r <;>
    simp [upload_file, countRemoveTask, List.count_cons, List.count_replicate,
      List.count_nil]

theorem countAddTask_upload (r : UploadResult) (size : Nat) :
    countAddTask (upload_file r size).2 = 0 := by
  cases r <;>
    simp [upload_file, countAddTask, List.countP_cons, List.countP_replicate,
      isAddTask]

theorem fsMutations_upload (r : UploadResult) (size : Nat) :
    fsMutations (upload_file r size).2 = [] := by
  cases r <;>
    simp [upload_file, fsMutations, List.filter_replicate, isFsMutation]

theorem advanceTotal_upload_success (size : Nat) :
    advanceTotal (upload_file .success size).2 =
      storbinary_callbacks size BLOCKSIZE * tracker_advance := by
  simp [upload_file, advanceTotal, advanceOf, List.map_replicate,
    List.sum_const_nat]

theorem UploadResult.ok_iff {r : UploadResult} : r.ok = true ↔ r = .success := by
  cases r <;> simp [UploadResult.ok]

theorem process_file_isfile_none {fs : String → Option Nat} {path : String}
    (cfg : Config) (r : UploadResult) (h : fs path = none) :
    process_file cfg fs r path = (false, []) := by
  simp [process_file, h]

theorem process_file_zero {fs : String → Option Nat} {path : String}
    (cfg : Config) (r : UploadResult) (h : fs path = some 0) :
    process_file cfg fs r path = (false, []) := by
  simp [process_file, h]

theorem process_file_fail {fs : String → Option Nat} {path : String}
    {size : Nat} {r : UploadResult} (cfg : Config) (h : fs path = some size)
    (hz : size ≠ 0) (hr : r.ok = false) :
    process_file cfg fs r path =
      (false, (Event.addTask (basename path) size :: (upload_file r size).2) ++
        [Event.removeTask]) := by
  simp [process_file, h, hz, upload_file_fst, hr]

theorem process_file_success_mv {fs : String → Option Nat} {path : String}
    {size : Nat} {cfg : Config} (h : fs path = some size) (hz : size ≠ 0)
    (hmv : pyTruthy cfg.mv = true) :
    process_file cfg fs .success path =
      (true, (Event.addTask (basename path) size ::
        (upload_file .success size).2) ++ move_file cfg path (basename path)) := by
  simp [process_file, h, hz, upload_file_fst, UploadResult.ok, hmv]

theorem process_file_success_rm {fs : String → Option Nat} {path : String}
    {size : Nat} {cfg : Config} (h : fs path = some size) (hz : size ≠ 0)
    (hmv : pyTruthy cfg.mv = false) (hrm : cfg.rm = true) :
    process_file cfg fs .success path =
      (true, (Event.addTask (basename path) size ::
        (upload_file .success size).2) ++ delete_file path) := by
  simp [process_file, h, hz, upload_file_fst, UploadResult.ok, hmv, hrm]

theorem process_file_success_noaction {fs : String → Option Nat} {path : String}
    {size : Nat} {cfg : Config} (h : fs path = some size) (hz : size ≠ 0)
    (hmv : pyTruthy cfg.mv = false) (hrm : cfg.rm = false) :
    process_file cfg fs .success path =
      (true, Event.addTask (basename path) size :: (upload_file .success size).2) := by
  simp [process_file, h, hz, upload_file_fst, UploadResult.ok, hmv, hrm]

theorem append_file_mem {fs : String → Option Nat} {s : ModState}
    {path : String} (h : path ∈ s.files) :
    append_file fs s path = (s, false) := by
  simp [append_file, h]

theorem append_file_push {fs : String → Option Nat} {s : ModState}
    {path : String} (h1 : path ∉ s.files) (h2 : isfile fs path = true)
    (h3 : s.queue.length < QUEUE_CAPACITY) :
    append_file fs s path =
      ({ queue := s.queue ++ [path], files := s.files ++ [path] }, false) := by
  simp [append_file, h1, h2, h3]

theorem append_file_full {fs : String → Option Nat} {s : ModState}
    {path : String} (h1 : path ∉ s.files) (h2 : isfile fs path = true)
    (h3 : ¬ s.queue.length < QUEUE_CAPACITY) :
    append_file fs s path = (s, true) := by
  simp [append_file, h1, h2, h3]

theorem append_file_notfile {fs : String → Option Nat} {s : ModState}
    {path : String} (h1 : path ∉ s.files) (h2 : isfile fs path = false) :
    append_file fs s path = (s, false) := by
  simp [append_file, h1, h2]

/-! ### Claim theorems -/

/-- C1: the claim says `--threads N` starts `N` upload workers.  The
constructor does create one worker per requested thread, but `__main__`
passes the literal `num_threads=3` (autoupload.py line 277) and never
forwards `args.threads`, so every invocation gets 3 upload workers;
with `--threads 5` the pool size is 3, not 5. -/
theorem c1_threads_argument_not_wired :
    (∀ (src srv : String) (n : Nat) (u p d : String) (b : Bool) (m : String),
      (mkAutoUploadModule src srv n u p d b m).numWorkers = n) ∧
    (∀ a : Args, (moduleFromArgs a).numWorkers = 3) ∧
    (moduleFromArgs { defaultArgs "/src" "host" with threads := 5 }).numWorkers = 3 ∧
    (3 : Nat) ≠ 5 :=
  ⟨fun _ _ _ _ _ _ _ _ => rfl, fun _ => rfl, rfl, by decide⟩

/-- C7: the cwd half of the claim holds (`ftp.cwd(self.remote_dir)` with
`remote_dir = args.ftp_dir`), but `args.ftp_port` is parsed and never used:
the `ftplib.FTP(host=..., user=..., passwd=...)` call in `_upload_file`
passes no port, so every connection uses the library default port 21 —
with `--ftp_port 2121` the connection still opens on 21. -/
theorem c7_ftp_port_argument_not_wired :
    (∀ a : Args, uploadCwd (moduleFromArgs a) = a.ftp_dir) ∧
    (∀ a : Args, (uploadFtpConnect (moduleFromArgs a)).port = none) ∧
    (∀ a : Args, connectPort (uploadFtpConnect (moduleFromArgs a)) = 21) ∧
    connectPort (uploadFtpConnect (moduleFromArgs
      { defaultArgs "/src" "host" with ftp_port := 2121 })) ≠ 2121 :=
  ⟨fun _ => rfl, fun _ => rfl, fun _ => rfl, by decide⟩

/-- C9: the queue is created with `maxsize=15`; `_append_file` preserves
`len(queue) ≤ 15`; and when an enqueue attempt finds the queue full
(the path is fresh and is a file, so `queue.put` is reached and raises
`queue.Full`), the state is unchanged — in particular the path is not
added to `self.files` — the exception is caught, and the scanner backs
off with `time.sleep(5.0)` (the `true` flag). -/
theorem c9_bounded_queue_backpressure (fs : String → Option Nat)
    (s : ModState) (path : String) (h : s.queue.length ≤ QUEUE_CAPACITY) :
    QUEUE_CAPACITY = 15 ∧
    (append_file fs s path).1.queue.length ≤ 15 ∧
    (s.queue.length = 15 →
      (append_file fs s path).1 = s ∧
      (path ∉ s.files → isfile fs path = true →
        append_file fs s path = (s, true))) := by
  have hcap : QUEUE_CAPACITY = 15 := rfl
  refine ⟨rfl, ?_, ?_⟩
  · by_cases h1 : path ∈ s.files
    · rw [append_file_mem h1]; exact hcap ▸ h
    · by_cases h2 : isfile fs path
      · by_cases h3 : s.queue.length < QUEUE_CAPACITY
        · rw [append_file_push h1 h2 h3]
          have : s.queue.length < 15 := hcap ▸ h3
          simp only [List.length_append, List.length_cons, List.length_nil]
          omega
        · rw [append_file_full h1 h2 h3]; exact hcap ▸ h
      · rw [append_file_notfile h1 (by simpa using h2)]; exact hcap ▸ h
  · intro hfull
    have h3 : ¬ s.queue.length < QUEUE_CAPACITY := by rw [hfull, hcap]; omega
    constructor
    · by_cases h1 : path ∈ s.files
      · rw [append_file_mem h1]
      · by_cases h2 : isfile fs path
        · rw [append_file_full h1 h2 h3]
        · rw [append_file_notfile h1 (by simpa using h2)]
    · intro h1 h2
      exact append_file_full h1 h2 h3

/-- Witness for C9 at a full queue of 15 entries. -/
theorem c9_witness :
    (append_file (fun _ => some 1) ⟨List.replicate 15 "x", []⟩ "p").1.queue.length ≤ 15 ∧
    append_file (fun _ => some 1) ⟨List.replicate 15 "x", []⟩ "p" =
      (⟨List.replicate 15 "x", []⟩, true) := by
  have h := c9_bounded_queue_backpressure (fun _ => some 1)
    ⟨List.replicate 15 "x", []⟩ "p" (by decide)
  exact ⟨h.2.1, (h.2.2 (by decide)).2 (by decide) rfl⟩

/-- C6 counterexample: the claim says a zero-byte file is never placed into
the bounded queue, but `_append_file` checks only `os.path.isfile`, never
the size: a zero-byte `z.bin` is pushed onto the queue. -/
theorem c6_counterexample_zero_byte_enqueued :
    (fun _ => (some 0 : Option Nat)) "z.bin" = some 0 ∧
    "z.bin" ∈ (append_file (fun _ => some 0) ⟨[], []⟩ "z.bin").1.queue :=
  ⟨rfl, by decide⟩

/-- C6 as amended: a zero-byte file can be enqueued (the scanner's
`_append_file` checks only existence), but it is never transferred: the
zero-size guard in `_process_file` (line 154) skips it before any progress
task is created or any connection is opened — it emits no events at all. -/
theorem c6_zero_byte_never_uploaded (cfg : Config) (fs : String → Option Nat)
    (r : UploadResult) (s : ModState) (path : String) (h : fs path = some 0) :
    (path ∉ s.files → s.queue.length < QUEUE_CAPACITY →
      path ∈ (append_file fs s path).1.queue) ∧
    process_file cfg fs r path = (false, []) := by
  constructor
  · intro h1 h3
    rw [append_file_push h1 (by simp [isfile, h]) h3]
    simp
  · exact process_file_zero cfg r h

/-- Witness for C6 on a concrete zero-byte file. -/
theorem c6_witness :
    "z0" ∈ (append_file (fun _ => some 0) ⟨[], []⟩ "z0").1.queue ∧
    process_file ⟨false, ""⟩ (fun _ => some 0) .success "z0" = (false, []) := by
  have h := c6_zero_byte_never_uploaded ⟨false, ""⟩ (fun _ => some 0) .success
    ⟨[], []⟩ "z0" rfl
  exact ⟨h.1 (by decide) (by decide), h.2⟩

/-- C5: the dedup release in `_worker_thread` (lines 191-193) runs after
`_process_file` returns and removes the path from `self.files` iff
`self.rm or self.mv` is truthy, identically for success, failure and skip
(the release does not inspect the processing result at all); when neither
is configured the in-flight list is left unchanged, so the path stays
tracked permanently. -/
theorem c5_dedup_release_rule (cfg : Config) (fs : String → Option Nat)
    (r : UploadResult) (files : List String) (path : String)
    (h : files.Nodup) :
    ((worker_step cfg fs r files path).1 =
      if cfg.rm || pyTruthy cfg.mv then files.erase path else files) ∧
    ((cfg.rm || pyTruthy cfg.mv) = true →
      path ∉ (worker_step cfg fs r files path).1) ∧
    ((cfg.rm || pyTruthy cfg.mv) = false →
      (worker_step cfg fs r files path).1 = files) ∧
    (∀ (fs2 : String → Option Nat) (r2 : UploadResult),
      (worker_step cfg fs2 r2 files path).1 =
        (worker_step cfg fs r files path).1) := by
  refine ⟨rfl, ?_, ?_, fun _ _ => rfl⟩
  · intro hc
    simp only [worker_step, worker_release, hc, if_true]
    exact h.not_mem_erase
  · intro hc
    simp [worker_step, worker_release, hc]

/-- Witness for C5: with `--remove` the path is released; with no
post-action it stays tracked. -/
theorem c5_witness :
    ("a" : String) ∉ (worker_step ⟨true, ""⟩ (fun _ => some 1) .success ["a"] "a").1 ∧
    (worker_step ⟨false, ""⟩ (fun _ => some 1) .success ["a"] "a").1 = ["a"] :=
  ⟨(c5_dedup_release_rule ⟨true, ""⟩ (fun _ => some 1) .success ["a"] "a"
      (by decide)).2.1 (by decide),
   (c5_dedup_release_rule ⟨false, ""⟩ (fun _ => some 1) .success ["a"] "a"
      (by decide)).2.2.1 (by decide)⟩

/-- C2 counterexample: on a successful upload with no post-action configured
(`rm = false`, `mv = ""`), `_process_file` returns `True` on line 167 before
reaching the `remove_task` on line 173: the indicator is created once and
never removed, contradicting "removed exactly once ... in every outcome". -/
theorem c2_counterexample_no_teardown_on_plain_success :
    countAddTask (process_file ⟨false, ""⟩ (fun _ => some 5) .success "a.txt").2 = 1 ∧
    countRemoveTask (process_file ⟨false, ""⟩ (fun _ => some 5) .success "a.txt").2 = 0 := by
  decide

/-- C2 as amended: for a file that passes validation, the progress indicator
is created exactly once and removed exactly once on success-with-move,
success-with-delete and on every failed upload; on a successful upload with
no post-action configured it is created once and never removed; on a skip
(file vanished or zero-byte) no indicator is created at all. -/
theorem c2_progress_teardown (cfg : Config) (fs : String → Option Nat)
    (r : UploadResult) (path : String) (size : Nat)
    (h : fs path = some size) (hz : size ≠ 0) :
    (r.ok = true → (pyTruthy cfg.mv || cfg.rm) = true →
      countAddTask (process_file cfg fs r path).2 = 1 ∧
      countRemoveTask (process_file cfg fs r path).2 = 1) ∧
    (r.ok = true → (pyTruthy cfg.mv || cfg.rm) = false →
      countAddTask (process_file cfg fs r path).2 = 1 ∧
      countRemoveTask (process_file cfg fs r path).2 = 0) ∧
    (r.ok = false →
      countAddTask (process_file cfg fs r path).2 = 1 ∧
      countRemoveTask (process_file cfg fs r path).2 = 1) ∧
    (∀ fs0 : String → Option Nat, fs0 path = none ∨ fs0 path = some 0 →
      (process_file cfg fs0 r path).2 = []) := by
  refine ⟨?_, ?_, ?_, ?_⟩
  · intro hr hc
    rcases UploadResult.ok_iff.mp hr with rfl
    rcases Bool.or_eq_true _ _ |>.mp hc with hmv | hrm
    · rw [process_file_success_mv h hz hmv]
      have h1 := countAddTask_upload .success size
      have h2 := countRemoveTask_upload .success size
      simp [countAddTask, countRemoveTask, move_file, isAddTask,
        List.count_append, List.count_cons] at h1 h2 ⊢
      simp [h2]
      exact h1
    · by_cases hmv : pyTruthy cfg.mv
      · rw [process_file_success_mv h hz hmv]
        have h1 := countAddTask_upload .success size
        have h2 := countRemoveTask_upload .success size
        simp [countAddTask, countRemoveTask, move_file, isAddTask,
          List.count_append, List.count_cons] at h1 h2 ⊢
        simp [h2]
        exact h1
      · rw [process_file_success_rm h hz (by simpa using hmv) hrm]
        have h1 := countAddTask_upload .success size
        have h2 := countRemoveTask_upload .success size
        simp [countAddTask, countRemoveTask, delete_file, isAddTask,
          List.count_append, List.count_cons] at h1 h2 ⊢
        simp [h2]
        exact h1
  · intro hr hc
    rcases UploadResult.ok_iff.mp hr with rfl
    have hmv : pyTruthy cfg.mv = false := by
      cases hp : pyTruthy cfg.mv <;> simp [hp] at hc ⊢
    have hrm : cfg.rm = false := by
      cases hp : cfg.rm <;> simp [hp, hmv] at hc ⊢
    rw [process_file_success_noaction h hz hmv hrm]
    have h1 := countAddTask_upload .success size
    have h2 := countRemoveTask_upload .success size
    simp [countAddTask, countRemoveTask, isAddTask, List.count_cons] at h1 h2 ⊢
    simp [h2]
    exact h1
  · intro hr
    rw [process_file_fail cfg h hz hr]
    have h1 := countAddTask_upload r size
    have h2 := countRemoveTask_upload r size
    simp [countAddTask, countRemoveTask, isAddTask, List.count_append,
      List.count_cons] at h1 h2 ⊢
    simp [h2]
    exact h1
  · intro fs0 h0
    rcases h0 with h0 | h0
    · rw [process_file_isfile_none cfg r h0]
    · rw [process_file_zero cfg r h0]

/-- Witness for C2 with `--remove` configured: one creation, one removal. -/
theorem c2_witness :
    countAddTask (process_file ⟨true, ""⟩ (fun _ => some 5) .success "a.txt").2 = 1 ∧
    countRemoveTask (process_file ⟨true, ""⟩ (fun _ => some 5) .success "a.txt").2 = 1 := by
  have h := c2_progress_teardown ⟨true, ""⟩ (fun _ => some 5) .success "a.txt" 5
    rfl (by decide)
  exact h.1 rfl (by decide)

/-- C3 counterexample: `FtpUploadTracker.handle` advances by the constant
1024 per callback regardless of the bytes in the last block, so a 1-byte
file reports 1024 bytes of progress, not 1. -/
theorem c3_counterexample_progress_overreport :
    advanceTotal (process_file ⟨false, ""⟩ (fun _ => some 1) .success "a.txt").2 = 1024 ∧
    (1024 : Nat) ≠ 1 := by
  decide

/-- C3 as amended: for a file of size `S > 0` whose transfer completes
without error, the per-chunk advances sum to `1024 * ceil(S / 1024)` — `S`
rounded up to the next multiple of 1024 — which over-reports by up to 1023
bytes and equals `S` exactly when `S` is a multiple of 1024. -/
theorem c3_progress_total_rounded_up (cfg : Config) (fs : String → Option Nat)
    (path : String) (size : Nat) (h : fs path = some size) (hz : 0 < size) :
    advanceTotal (process_file cfg fs .success path).2 =
      storbinary_callbacks size BLOCKSIZE * tracker_advance ∧
    size ≤ advanceTotal (process_file cfg fs .success path).2 ∧
    advanceTotal (process_file cfg fs .success path).2 < size + BLOCKSIZE ∧
    (advanceTotal (process_file cfg fs .success path).2 = size ↔
      BLOCKSIZE ∣ size) := by
  have hz' : size ≠ 0 := Nat.pos_iff_ne_zero.mp hz
  have key : advanceTotal (process_file cfg fs .success path).2 =
      storbinary_callbacks size BLOCKSIZE * tracker_advance := by
    have hup := advanceTotal_upload_success size
    by_cases hmv : pyTruthy cfg.mv
    · rw [process_file_success_mv h hz' hmv]
      simp [advanceTotal, move_file, advanceOf, List.map_append] at hup ⊢
      simp [hup]
    · by_cases hrm : cfg.rm
      · rw [process_file_success_rm h hz' (by simpa using hmv) hrm]
        simp [advanceTotal, delete_file, advanceOf, List.map_append] at hup ⊢
        simp [hup]
      · rw [process_file_success_noaction h hz' (by simpa using hmv)
          (by simpa using hrm)]
        simp [advanceTotal, advanceOf] at hup ⊢
        simp [hup]
  refine ⟨key, ?_, ?_, ?_⟩
  · rw [key]
    simp only [storbinary_callbacks, BLOCKSIZE, tracker_advance]
    omega
  · rw [key]
    simp only [storbinary_callbacks, BLOCKSIZE, tracker_advance]
    omega
  · rw [key]
    simp only [storbinary_callbacks, BLOCKSIZE, tracker_advance,
      Nat.dvd_iff_mod_eq_zero]
    omega

/-- Witness for C3 on a 2049-byte file: three chunks, 3072 bytes reported. -/
theorem c3_witness :
    advanceTotal (process_file ⟨false, ""⟩ (fun _ => some 2049) .success "a.txt").2 =
      storbinary_callbacks 2049 BLOCKSIZE * tracker_advance ∧
    2049 ≤ advanceTotal (process_file ⟨false, ""⟩ (fun _ => some 2049) .success "a.txt").2 := by
  have h := c3_progress_total_rounded_up ⟨false, ""⟩ (fun _ => some 2049)
    "a.txt" 2049 rfl (by decide)
  exact ⟨h.1, h.2.1⟩

/-- C8: `_move_file` and `_delete_file` are reached only inside the
`if self._upload_file(...)` branch of `_process_file`, so the local
filesystem is mutated only after a successful upload: when the upload
fails or the file is skipped, the trace contains no rename and no delete,
and a `True` result is only possible when the store completed. -/
theorem c8_fs_mutation_only_after_success (cfg : Config)
    (fs : String → Option Nat) (r : UploadResult) (path : String) :
    ((process_file cfg fs r path).1 = false →
      fsMutations (process_file cfg fs r path).2 = []) ∧
    (r.ok = false → (process_file cfg fs r path).1 = false) ∧
    (fs path = none → fsMutations (process_file cfg fs r path).2 = []) ∧
    (fs path = some 0 → fsMutations (process_file cfg fs r path).2 = []) ∧
    ((process_file cfg fs r path).1 = true → r = .success) := by
  have hfail : r.ok = false → (process_file cfg fs r path).1 = false ∧
      fsMutations (process_file cfg fs r path).2 = [] := by
    intro hr
    rcases hfs : fs path with _ | size
    · rw [process_file_isfile_none cfg r hfs]
      simp [fsMutations]
    · by_cases hsz : size = 0
      · subst hsz
        rw [process_file_zero cfg r hfs]
        simp [fsMutations]
      · rw [process_file_fail cfg hfs hsz hr]
        have hm := fsMutations_upload r size
        simp [fsMutations, List.filter_append, List.filter_cons,
          isFsMutation] at hm ⊢
        exact hm
  refine ⟨?_, fun hr => (hfail hr).1, ?_, ?_, ?_⟩
  · intro hret
    by_cases hr : r.ok
    · rcases UploadResult.ok_iff.mp hr with rfl
      rcases hfs : fs path with _ | size
      · rw [process_file_isfile_none cfg .success hfs]
        simp [fsMutations]
      · by_cases hsz : size = 0
        · subst hsz
          rw [process_file_zero cfg .success hfs]
          simp [fsMutations]
        · exfalso
          by_cases hmv : pyTruthy cfg.mv
          · rw [process_file_success_mv hfs hsz hmv] at hret
            simp at hret
          · by_cases hrm : cfg.rm
            · rw [process_file_success_rm hfs hsz (by simpa using hmv) hrm] at hret
              simp at hret
            · rw [process_file_success_noaction hfs hsz (by simpa using hmv)
                (by simpa using hrm)] at hret
              simp at hret
    · exact (hfail (by simpa using hr)).2
  · intro hfs
    rw [process_file_isfile_none cfg r hfs]
    simp [fsMutations]
  · intro hfs
    rw [process_file_zero cfg r hfs]
    simp [fsMutations]
  · intro hret
    by_cases hr : r.ok
    · exact UploadResult.ok_iff.mp hr
    · exfalso
      rw [(hfail (by simpa using hr)).1] at hret
      simp at hret

/-- Witness for C8 on a failed connect: no rename, no delete. -/
theorem c8_witness :
    fsMutations (process_file ⟨true, ""⟩ (fun _ => some 5) .connectError "a.txt").2 = [] ∧
    (process_file ⟨true, ""⟩ (fun _ => some 5) .connectError "a.txt").1 = false := by
  have h := c8_fs_mutation_only_after_success ⟨true, ""⟩ (fun _ => some 5)
    .connectError "a.txt"
  exact ⟨h.1 (h.2.1 rfl), h.2.1 rfl⟩

/-- C4 counterexample: `_append_file` performs `queue.put` (line 136)
*before* `files.append` (line 137), so on a successful enqueue from the
empty state the intermediate state has the path in the queue and absent
from the in-flight list — the in-flight addition becomes visible strictly
later than the queue push, not "no later". -/
theorem c4_counterexample_push_before_track :
    append_file_states (fun _ => some 1) ⟨[], []⟩ "a.txt" =
      [⟨[], []⟩, ⟨["a.txt"], []⟩, ⟨["a.txt"], ["a.txt"]⟩] ∧
    ¬ queueSubFiles ⟨["a.txt"], []⟩ :=
  ⟨by decide, fun h => absurd (h "a.txt" (by decide)) (by decide)⟩

/-- C4 as amended: the invariant "every queued path is in the in-flight
list" holds at `_append_file`'s operation boundaries — it is preserved by a
complete `_append_file` call, whose final state tracks every path it
enqueued, and by a worker's `queue.get` — but inside `_append_file` the
queue push precedes the in-flight append, so there is a momentary window
in which the path sits in the queue while absent from the list. -/
theorem c4_queue_subset_files_at_boundaries (fs : String → Option Nat)
    (s : ModState) (path : String) (h : queueSubFiles s) :
    queueSubFiles (append_file fs s path).1 ∧
    (append_file_states fs s path).getLast? = some (append_file fs s path).1 ∧
    (∀ x q, queue_get s.queue = some (x, q) → ∀ p ∈ q, p ∈ s.files) := by
  refine ⟨?_, ?_, ?_⟩
  · by_cases h1 : path ∈ s.files
    · rw [append_file_mem h1]; exact h
    · by_cases h2 : isfile fs path
      · by_cases h3 : s.queue.length < QUEUE_CAPACITY
        · rw [append_file_push h1 h2 h3]
          intro p hp
          rcases List.mem_append.mp hp with hp | hp
          · exact List.mem_append.mpr (Or.inl (h p hp))
          · exact List.mem_append.mpr (Or.inr hp)
        · rw [append_file_full h1 h2 h3]; exact h
      · rw [append_file_notfile h1 (by simpa using h2)]; exact h
  · simp only [append_file_states, append_file]
    split_ifs <;> rfl
  · intro x q hq p hp
    cases hsq : s.queue with
    | nil => rw [hsq] at hq; simp [queue_get] at hq
    | cons y ys =>
      rw [hsq] at hq
      simp only [queue_get, Option.some.injEq, Prod.mk.injEq] at hq
      exact h p (by rw [hsq]; exact List.mem_cons_of_mem y (hq.2 ▸ hp))

/-- Witness for C4 from the empty state. -/
theorem c4_witness :
    queueSubFiles (append_file (fun _ => some 1) ⟨[], []⟩ "a").1 :=
  (c4_queue_subset_files_at_boundaries (fun _ => some 1) ⟨[], []⟩ "a"
    (fun p hp => absurd hp (List.not_mem_nil p))).1

/-- C10: for a zero-byte file found by the scanner (fresh path, queue not
full), the path is added to `self.files` at enqueue time unconditionally;
processing skips it with no events.  With no post-action configured the
worker retains the entry, so the state after one scan-process round has
the path tracked forever and any later `_append_file` — even once the file
has become non-empty — is a no-op: the file is never uploaded.  With move
or delete configured the release restores the original state, so every
subsequent scan round re-enqueues the file identically, with no retry
limit or backoff (iterating the round any number of times returns the same
state and each round pushes the path onto the queue). -/
theorem c10_zero_byte_dedup_policy (cfg : Config) (fs : String → Option Nat)
    (r : UploadResult) (s : ModState) (path : String)
    (h : fs path = some 0) (hmem : path ∉ s.files) (hq : s.queue = []) :
    (append_file fs s path).1 = { queue := [path], files := s.files ++ [path] } ∧
    process_file cfg fs r path = (false, []) ∧
    ((cfg.rm || pyTruthy cfg.mv) = false →
      scan_worker_cycle cfg fs r s path =
        { queue := [], files := s.files ++ [path] } ∧
      (∀ fs2 : String → Option Nat,
        append_file fs2 { queue := [], files := s.files ++ [path] } path =
          ({ queue := [], files := s.files ++ [path] }, false))) ∧
    ((cfg.rm || pyTruthy cfg.mv) = true →
      scan_worker_cycle cfg fs r s path = s ∧
      (∀ n, (fun st => scan_worker_cycle cfg fs r st path)^[n] s = s) ∧
      path ∈ (append_file fs s path).1.queue) := by
  have hfile : isfile fs path = true := by simp [isfile, h]
  have hlt : s.queue.length < QUEUE_CAPACITY := by
    rw [hq]; decide
  have hpush := append_file_push hmem hfile hlt
  have hstate : (append_file fs s path).1 =
      { queue := [path], files := s.files ++ [path] } := by
    rw [hpush, hq]
    rfl
  refine ⟨hstate, process_file_zero cfg r h, ?_, ?_⟩
  · intro hc
    constructor
    · unfold scan_worker_cycle
      rw [hstate]
      simp only [queue_get, worker_step, worker_release, hc]
      simp
    · intro fs2
      exact append_file_mem (by simp)
  · intro hc
    have hcycle : scan_worker_cycle cfg fs r s path = s := by
      unfold scan_worker_cycle
      rw [hstate]
      simp only [queue_get, worker_step, worker_release, hc, if_true]
      have herase : (s.files ++ [path]).erase path = s.files := by
        rw [List.erase_append_right _ hmem, List.erase_cons_head,
          List.append_nil]
      rcases s with ⟨q, fl⟩
      simp only at hq herase ⊢
      rw [hq, herase]
    refine ⟨hcycle, ?_, ?_⟩
    · intro n
      induction n with
      | zero => rfl
      | succ k ih => rw [Function.iterate_succ_apply, hcycle, ih]
    · rw [hstate]
      simp

/-- Witness for C10 with `--remove` configured on an empty initial state. -/
theorem c10_witness :
    scan_worker_cycle ⟨true, ""⟩ (fun _ => some 0) .success ⟨[], []⟩ "z" = ⟨[], []⟩ ∧
    process_file ⟨true, ""⟩ (fun _ => some 0) .success "z" = (false, []) := by
  have h := c10_zero_byte_dedup_policy ⟨true, ""⟩ (fun _ => some 0) .success
    ⟨[], []⟩ "z" rfl (by decide) rfl
  exact ⟨(h.2.2.2 (by decide)).1, h.2.1⟩

end AutoUpload
